import Mathlib

/-!
# Verification of the telegram chat-bot core (chat_bot.py, speech_to_text.py)

Shallow embedding of the pure/sequential core of the repository:

* the per-user session store (`get_user_history` / `trim_user_history`),
* the inference orchestrator `chat_with_gpt` (modelled over an abstract
  backend outcome: the blocking completion call either returns a response
  object with a list of choices, raises `asyncio.TimeoutError`, or raises
  some other exception),
* the reply chunker inside `send_long_message`,
* the streaming transcriber `audio_to_text` (modelled over an abstract
  recognizer run, with the resource state — audio handle, canonical audio
  file — made explicit),
* the dispatch in `voice_chat` that decides, from the transcription result,
  whether to forward a prompt to the orchestrator (Python truthiness on the
  returned string).
-/

set_option maxRecDepth 8192

namespace ChatBot

/-- `{"role": ..., "content": ...}` message dictionaries. -/
inductive Role
  | system
  | user
  | assistant
deriving DecidableEq, Repr

/-- One message of a conversation history. -/
structure Turn where
  role : Role
  content : String
deriving DecidableEq, Repr

/-- `MAX_HISTORY = 50` in chat_bot.py. -/
def MAX_HISTORY : Nat := 50

/-- The system prompt installed by `get_user_history` at session creation. -/
def systemPrompt : String :=
  "You are a helpful AI assistant. Answer only the current question and do not include or reference previous questions and answers in your response. Refer to a past or previous question only if the user explicitly asks about it. Keep responses concise and relevant to the query. If the question is ambiguous, ask for clarification instead of making assumptions. If the question requires factual information, ensure accuracy before responding. Avoid providing opinions or making up information."

def systemTurn : Turn := ⟨Role.system, systemPrompt⟩

/-- Python `l[-n:]` for `n > 0`: the last `min n l.length` elements. -/
def takeLast (n : Nat) (l : List Turn) : List Turn :=
  l.drop (l.length - n)

/-- `get_user_history`: the fresh history created for a user on first contact
(`user_conversations[user_id] = [{"role": "system", ...}]`). -/
def get_user_history_init : List Turn := [systemTurn]

/-- `trim_user_history`:
`user_conversations[user_id] = [user_conversations[user_id][0]] + user_conversations[user_id][-MAX_HISTORY:]`.
`l.take 1` is `[l[0]]` for the nonempty lists this is called on. -/
def trim_user_history (l : List Turn) : List Turn :=
  l.take 1 ++ takeLast MAX_HISTORY l

/-- Python `str.lower()`: lowercase the string character by character. -/
def pyLower (s : String) : String := ⟨s.data.map Char.toLower⟩

/-- `prompt = user_text or update.message.text.lower()` in `chat_with_gpt`:
Python `or` takes `user_text` when it is a truthy (nonempty) string and
falls through to the lowered message text otherwise (`user_text=None` for
plain text messages). -/
def compute_prompt (userText : Option String) (msgText : String) : String :=
  match userText with
  | some t => if t = "" then pyLower msgText else t
  | none => pyLower msgText

/-- How the blocking backend call
`await asyncio.to_thread(client.chat.completions.create, ...)` settles:
it returns a response object carrying a (possibly empty) list of choice
contents, raises `asyncio.TimeoutError`, or raises any other exception.
A `None` / choices-less response object behaves as `returns []`: both take
the `raise ValueError(...)` branch at line 79 of chat_bot.py. -/
inductive BackendOutcome
  | returns (choices : List String)
  | raisesTimeout
  | raisesOther
deriving DecidableEq, Repr

/-- Fixed notice for `except asyncio.TimeoutError`. -/
def timeoutNotice : String :=
  "The AI is taking too long to respond. Please try again later."

/-- Fixed notice for `except Exception`. -/
def errorNotice : String :=
  "We're experiencing temporary server issues. Please try again in a little while."

/-- Observable outcome of one `chat_with_gpt` call for one user:
the stored session afterwards, the `reply_from_bot` text handed to
`send_long_message`, and whether `typing_task.cancel()` was ever invoked. -/
structure ChatResult where
  history : List Turn
  reply : String
  typingCancelled : Bool
deriving DecidableEq, Repr

/-- `chat_with_gpt` (chat_bot.py lines 52-100), for one user, starting from
the stored history `history` (as returned by `get_user_history`):
append the user turn and trim, start the typing task, run the backend call,
then follow the source's branch structure.  `typing_task.cancel()` appears
only at lines 78 (before `raise ValueError`) and 84 (success path); the
`except asyncio.TimeoutError` and `except Exception` handlers never cancel
it. -/
def chat_with_gpt (history : List Turn) (msgText : String)
    (userText : Option String) (backend : BackendOutcome) : ChatResult :=
  let prompt := compute_prompt userText msgText
  let h1 := trim_user_history (history ++ [⟨Role.user, prompt⟩])
  match backend with
  | .returns [] =>
      -- line 78: typing_task.cancel(); line 79: raise ValueError → except Exception
      { history := h1, reply := errorNotice, typingCancelled := true }
  | .returns (c :: _) =>
      -- lines 83-88: reply := choices[0].message.content; cancel; append assistant; trim
      { history := trim_user_history (h1 ++ [⟨Role.assistant, c⟩]),
        reply := c, typingCancelled := true }
  | .raisesTimeout =>
      -- lines 90-92: except asyncio.TimeoutError (no cancel)
      { history := h1, reply := timeoutNotice, typingCancelled := false }
  | .raisesOther =>
      -- lines 93-95: except Exception (no cancel)
      { history := h1, reply := errorNotice, typingCancelled := false }

/-- `max_length = 4000` in `send_long_message`. -/
def max_length : Nat := 4000

/-- The chunking in `send_long_message`:
`messages = [text[i:i+max_length] for i in range(0, len(text), max_length)]`,
i.e. contiguous slices of `max_length` characters taken left to right until
the text is exhausted (an empty text yields an empty list, so the reply loop
sends nothing). -/
def chunkMessages : List Char → List (List Char)
  | [] => []
  | c :: cs => ((c :: cs).take max_length) :: chunkMessages ((c :: cs).drop max_length)
termination_by l => l.length
decreasing_by simp [max_length]; omega

end ChatBot

namespace SpeechToText

/-- How `wave.open(audio_path, 'rb')` settles (speech_to_text.py line 58):
either the handle opens, or the call raises (missing file — e.g. the
unchecked ffmpeg subprocess never produced `output.wav` — or a corrupt
wave container). -/
inductive OpenResult
  | opens
  | raises
deriving DecidableEq, Repr

/-- How the recognition loop (lines 60-78) goes once the handle is open:
it runs to completion with the intermediate segments captured from
`AcceptWaveform`/`Result` in order plus the one `FinalResult` segment,
or some read/decode step raises, landing in `except Exception`. -/
inductive RecognitionRun
  | completes (segs : List String) (finalSeg : String)
  | raisesDuring
deriving DecidableEq, Repr

/-- Observable outcome of one `audio_to_text` call: the value returned
(`none` when an exception propagates to the caller instead), whether an
exception escaped the function, whether the handle was ever opened and
later closed, and whether `os.remove` deleted the canonical audio file. -/
structure AudioOutcome where
  retVal : Option String
  raised : Bool
  handleOpened : Bool
  handleClosed : Bool
  fileDeleted : Bool
deriving DecidableEq, Repr

/-- `audio_to_text` (speech_to_text.py lines 45-90).
`modelExists` is `os.path.exists(model_path)`; `conversion` is the result of
`convert_audio` (`none` when it returned `None`).  The source's
`finally` block runs `audio_binary_file.close()` first: when `wave.open`
itself raised, that name was never bound, so the `finally` block raises
`NameError` before reaching `os.remove` — the file is not deleted and the
exception propagates to the caller. -/
def audio_to_text (modelExists : Bool) (conversion : Option String)
    (openR : OpenResult) (run : RecognitionRun) : AudioOutcome :=
  if !modelExists then
    { retVal := some "Error: Model not found", raised := false,
      handleOpened := false, handleClosed := false, fileDeleted := false }
  else
    match conversion with
    | none =>
        { retVal := some "Error: Audio conversion failed", raised := false,
          handleOpened := false, handleClosed := false, fileDeleted := false }
    | some _path =>
        match openR with
        | .raises =>
            -- except catches the open failure, but finally raises NameError
            -- on the unbound audio_binary_file; os.remove is never reached
            { retVal := none, raised := true,
              handleOpened := false, handleClosed := false, fileDeleted := false }
        | .opens =>
            match run with
            | .completes segs finalSeg =>
                -- results built in capture order, final appended once,
                -- " ".join(results); finally closes and removes
                { retVal := some (String.intercalate " " (segs ++ [finalSeg])),
                  raised := false,
                  handleOpened := true, handleClosed := true, fileDeleted := true }
            | .raisesDuring =>
                -- except returns the fixed error string; finally still
                -- closes the handle and removes the file
                { retVal := some "Error in speech recognition", raised := false,
                  handleOpened := true, handleClosed := true, fileDeleted := true }

/-- Python truthiness of a string: nonempty. -/
def pyTruthy (s : String) : Bool := s ≠ ""

/-- What `voice_chat` does with the transcription result (chat_bot.py
lines 118-121): `if user_text:` forwards it to `chat_with_gpt` as the
prompt, else replies with the could-not-understand notice. -/
inductive VoiceAction
  | forwardToChat (prompt : String)
  | replyCouldNotUnderstand
deriving DecidableEq, Repr

def voice_chat_dispatch (userText : String) : VoiceAction :=
  if pyTruthy userText then .forwardToChat userText else .replyCouldNotUnderstand

end SpeechToText

namespace ChatBot

/-! ## Reply chunker lemmas -/

theorem chunk_flatten_eq (l : List Char) : (chunkMessages l).flatten = l := by
  induction l using chunkMessages.induct with
  | case1 => simp [chunkMessages]
  | case2 c cs ih =>
      rw [chunkMessages]
      simp only [List.flatten_cons, ih, List.take_append_drop]

theorem chunk_mem_length_le (l : List Char) :
    ∀ ch ∈ chunkMessages l, ch.length ≤ max_length := by
  induction l using chunkMessages.induct with
  | case1 => simp [chunkMessages]
  | case2 c cs ih =>
      rw [chunkMessages]
      intro ch hch
      rcases List.mem_cons.mp hch with h | h
      · subst h; simp
      · exact ih ch h

theorem chunk_count_eq (l : List Char) :
    (chunkMessages l).length = (l.length + max_length - 1) / max_length := by
  induction l using chunkMessages.induct with
  | case1 => simp [chunkMessages, max_length]
  | case2 c cs ih =>
      rw [chunkMessages]
      simp only [List.length_cons, List.length_drop] at ih ⊢
      rw [ih]
      simp only [max_length] at *
      omega

/-! ## Claim theorems -/

/-- C1: the claim says the "hi"/"hello" scenario from an empty session leaves
the stored session as exactly three turns [system, user "hi", assistant
"hello"].  The code violates this: `trim_user_history` prepends `hist[0]` to
`hist[-MAX_HISTORY:]`, and for histories of length ≤ MAX_HISTORY the slice
still contains the system turn, so each append-then-trim duplicates it.  The
scenario actually stores FIVE turns [system, system, system, user, assistant]
(the assistant turn is appended after the user turn, and the reply is
"hello", as claimed — only the exact-three-turns session shape fails). -/
theorem hi_hello_scenario_stores_five_turns :
    (chat_with_gpt get_user_history_init "hi" none (.returns ["hello"])).history
      = [systemTurn, systemTurn, systemTurn,
         ⟨Role.user, "hi"⟩, ⟨Role.assistant, "hello"⟩] ∧
    (chat_with_gpt get_user_history_init "hi" none (.returns ["hello"])).history.length
      = 5 ∧
    (chat_with_gpt get_user_history_init "hi" none (.returns ["hello"])).reply
      = "hello" := by
  refine ⟨by decide, by decide, by decide⟩

/-- C2: the claim says the system turn occurs exactly once (never duplicated)
and the stored session is exactly [system] ++ last-N turns.  Failing input:
one append of a user turn to a fresh session, with MAX_HISTORY = 50.  The
trim yields [system, system, user]: the slice `hist[-50:]` of the 2-element
history still holds the system turn, which `[hist[0]] + ...` duplicates. -/
theorem trim_duplicates_system_turn :
    trim_user_history (get_user_history_init ++ [⟨Role.user, "hi"⟩])
      = [systemTurn, systemTurn, ⟨Role.user, "hi"⟩] ∧
    (trim_user_history (get_user_history_init ++ [⟨Role.user, "hi"⟩])).map Turn.role
      = [Role.system, Role.system, Role.user] := by
  refine ⟨by decide, by decide⟩

/-- C3: the claim says the heartbeat (typing) task is cancelled once the
backend call settles, on every outcome.  The code cancels it only on the
success path (line 84) and the empty-choices path (line 78); the
`except asyncio.TimeoutError` and `except Exception` handlers never cancel
it, so after a timeout or any raised backend error the typing task keeps
signalling forever. -/
theorem heartbeat_not_cancelled_on_timeout_or_error :
    (chat_with_gpt get_user_history_init "hi" none .raisesTimeout).typingCancelled
      = false ∧
    (chat_with_gpt get_user_history_init "hi" none .raisesOther).typingCancelled
      = false ∧
    (chat_with_gpt get_user_history_init "hi" none (.returns ["ok"])).typingCancelled
      = true ∧
    (chat_with_gpt get_user_history_init "hi" none (.returns [])).typingCancelled
      = true := by
  refine ⟨rfl, rfl, rfl, rfl⟩

/-- C4: when the backend call settles by raising the timeout, the reply is
the fixed "taking too long" notice (which differs from the generic
temporary-issue notice), and the stored session is exactly the state after
step 1 (user turn appended and trimmed) — no assistant turn is appended. -/
theorem timeout_outcome_fixed_notice_no_assistant_turn
    (history : List Turn) (msg : String) (ut : Option String) :
    (chat_with_gpt history msg ut .raisesTimeout).reply = timeoutNotice ∧
    timeoutNotice ≠ errorNotice ∧
    (chat_with_gpt history msg ut .raisesTimeout).history
      = trim_user_history (history ++ [⟨Role.user, compute_prompt ut msg⟩]) := by
  refine ⟨rfl, by decide, rfl⟩

/-- C6: the chunking in `send_long_message` is an ordered contiguous
non-overlapping slicing: the in-order concatenation of the chunks is the
original text, every chunk has length ≤ 4000, a text of length exactly 4000
yields one chunk, and a text of length 4001 yields two. -/
theorem chunker_lossless_bounded (text : List Char) :
    (chunkMessages text).flatten = text ∧
    (∀ ch ∈ chunkMessages text, ch.length ≤ max_length) ∧
    (text.length = 4000 → (chunkMessages text).length = 1) ∧
    (text.length = 4001 → (chunkMessages text).length = 2) := by
  refine ⟨chunk_flatten_eq text, chunk_mem_length_le text, ?_, ?_⟩ <;>
  · intro h
    rw [chunk_count_eq, h]
    decide

/-- Witness for C6 at texts of length 4000 and 4001. -/
theorem chunker_lossless_bounded_witness :
    ((List.replicate 4000 'a').length = 4000 ∧
      (chunkMessages (List.replicate 4000 'a')).length = 1) ∧
    ((List.replicate 4001 'b').length = 4001 ∧
      (chunkMessages (List.replicate 4001 'b')).length = 2) :=
  ⟨⟨List.length_replicate 4000 'a',
    (chunker_lossless_bounded (List.replicate 4000 'a')).2.2.1
      (List.length_replicate 4000 'a')⟩,
   ⟨List.length_replicate 4001 'b',
    (chunker_lossless_bounded (List.replicate 4001 'b')).2.2.2
      (List.length_replicate 4001 'b')⟩⟩

/-- C9: for a text message (`user_text=None`) the prompt appended to the
session and sent to the backend is the lowercased incoming text; a (nonempty)
voice transcript passed as `user_text` is forwarded unmodified, because
Python `or` short-circuits on the truthy string. -/
theorem prompt_lowercased_only_for_text_messages
    (hist : List Turn) (msg t : String) (h : t ≠ "") :
    compute_prompt none msg = pyLower msg ∧
    compute_prompt (some t) msg = t ∧
    (chat_with_gpt hist msg none .raisesOther).history
      = trim_user_history (hist ++ [⟨Role.user, pyLower msg⟩]) ∧
    (chat_with_gpt hist msg (some t) .raisesOther).history
      = trim_user_history (hist ++ [⟨Role.user, t⟩]) := by
  refine ⟨rfl, by simp [compute_prompt, h], rfl, ?_⟩
  simp [chat_with_gpt, compute_prompt, h]

/-- Witness for C9 at message "Hi" and transcript "hello there". -/
theorem prompt_lowercased_only_for_text_messages_witness :
    "hello there" ≠ "" ∧
    (compute_prompt none "Hi" = pyLower "Hi" ∧
     compute_prompt (some "hello there") "Hi" = "hello there" ∧
     (chat_with_gpt [] "Hi" none .raisesOther).history
       = trim_user_history ([] ++ [⟨Role.user, pyLower "Hi"⟩]) ∧
     (chat_with_gpt [] "Hi" (some "hello there") .raisesOther).history
       = trim_user_history ([] ++ [⟨Role.user, "hello there"⟩])) :=
  ⟨by decide,
   prompt_lowercased_only_for_text_messages [] "Hi" "hello there" (by decide)⟩

/-- C10: the chunker produces exactly ceil(len/4000) chunks,
written `(len + 4000 - 1) / 4000` over Nat; the empty text produces zero
chunks, so `send_long_message` on an empty reply sends no message at all. -/
theorem chunk_count_is_ceil (text : List Char) :
    (chunkMessages text).length = (text.length + max_length - 1) / max_length ∧
    chunkMessages [] = [] :=
  ⟨chunk_count_eq text, by simp [chunkMessages]⟩

end ChatBot

namespace SpeechToText

/-- C5: the claim says the audio handle is closed and the canonical audio
file deleted on every exit path past the model check and conversion.  The
code violates this when `wave.open` itself raises: the `finally` block runs
`audio_binary_file.close()` on a name that was never bound, raising
`NameError` before `os.remove` is reached, so the file survives and the
exception propagates to the caller.  The two paths past a successful open
(completion and a read/decode exception) do clean up. -/
theorem open_failure_skips_cleanup :
    (audio_to_text true (some "output.wav") .raises .raisesDuring).fileDeleted
      = false ∧
    (audio_to_text true (some "output.wav") .raises .raisesDuring).handleClosed
      = false ∧
    (audio_to_text true (some "output.wav") .raises .raisesDuring).raised
      = true ∧
    (audio_to_text true (some "output.wav") .opens .raisesDuring).fileDeleted
      = true ∧
    (audio_to_text true (some "output.wav") .opens (.completes [] "")).fileDeleted
      = true := by
  refine ⟨rfl, rfl, rfl, rfl, rfl⟩

/-- C7: on a completed recognition run the transcript returned is the
space-joined concatenation of the intermediate segments, in captured order,
followed by the one final segment; in particular ["hello", "world"] then
final "!" yields "hello world !". -/
theorem transcript_space_joined_in_order
    (p : String) (segs : List String) (finalSeg : String) :
    (audio_to_text true (some p) .opens (.completes segs finalSeg)).retVal
      = some (String.intercalate " " (segs ++ [finalSeg])) ∧
    (audio_to_text true (some "output.wav") .opens
        (.completes ["hello", "world"] "!")).retVal
      = some "hello world !" := by
  refine ⟨rfl, by decide⟩

/-- C8: the claim says every failure outcome of transcription is
distinguished by the caller from a valid transcript and never forwarded to
the completion backend as prompt text.  The code violates this: failures are
returned as nonempty strings ("Error: Model not found", ...), and
`voice_chat`'s `if user_text:` test treats any nonempty string as a valid
transcript, forwarding the failure string to `chat_with_gpt` as the prompt.
The fail-fast part does hold (a missing model returns before any audio
handle is opened), and an empty transcript is routed to the
could-not-understand notice. -/
theorem failure_strings_forwarded_to_backend :
    (audio_to_text false none .raises .raisesDuring).retVal
      = some "Error: Model not found" ∧
    (audio_to_text false none .raises .raisesDuring).handleOpened = false ∧
    voice_chat_dispatch "Error: Model not found"
      = .forwardToChat "Error: Model not found" ∧
    voice_chat_dispatch "Error: Audio conversion failed"
      = .forwardToChat "Error: Audio conversion failed" ∧
    voice_chat_dispatch "Error in speech recognition"
      = .forwardToChat "Error in speech recognition" ∧
    voice_chat_dispatch "" = .replyCouldNotUnderstand := by
  refine ⟨rfl, rfl, by decide, by decide, by decide, by decide⟩

end SpeechToText
